import Mathlib

/-!
Verification of the AI Log Analyzer's analysis core against its specification.

The repository ships the Next.js frontend (`frontend/components/AnalysisResults.tsx`,
`frontend/components/ServerConnect.tsx`, `frontend/app/page.tsx`), the README and
deployment scripts; the FastAPI backend that implements the analysis pipeline
(Format Normalizer, Anomaly Detector, Reputation Aggregator, Risk Synthesizer,
Job State Machine, Filter Query Engine) is not part of the source tree.  Those
components are therefore modelled from the specification, and each such
definition carries a doc comment saying so.  The Dashboard component is present
in the source and is embedded directly.
-/

namespace LogAnalyzer

/-- Modelled from the spec (§3, §4.5): the lifecycle states of an `AnalysisJob`.
The backend Job State Machine is not in the source tree. -/
inductive Status
  | queued
  | processing
  | completed
  | failed
  | canceled
deriving DecidableEq, Repr

/-- Modelled from the spec (§4.5): a status is terminal when it is
`completed`, `failed` or `canceled`. -/
def Status.isTerminal : Status → Bool
  | .completed => true
  | .failed => true
  | .canceled => true
  | _ => false

/-- Lifecycle order of the states: `queued` before `processing` before the
terminal states, as in `queued → processing → {completed | failed | canceled}`. -/
def Status.rank : Status → Nat
  | .queued => 0
  | .processing => 1
  | _ => 2

/-- Modelled from the spec (§4.4): the coarse job-wide risk classification. -/
inductive RiskLevel
  | low
  | medium
  | high
  | critical
deriving DecidableEq, Repr

/-- Modelled from the spec (§3): the canonical `LogRecord` produced by the
Format Normalizer.  `parsed_fields` is omitted because no claim observes it. -/
structure LogRecord where
  timestamp : Nat
  source_address : String
  user : Option String
  severity : String
  raw_text : String
deriving DecidableEq, Repr

/-- Modelled from the spec (§3): the finding categories of the Anomaly Detector. -/
inductive Category
  | sql_injection
  | xss
  | path_traversal
  | brute_force
  | sensitive_exposure
  | statistical_outlier
deriving DecidableEq, Repr

/-- Modelled from the spec (§3): an `AnomalyFinding` keyed by source address.
The evidence record reference is omitted because no claim observes it. -/
structure AnomalyFinding where
  source_address : String
  category : Category
  severity : RiskLevel
  confidence : ℚ
deriving DecidableEq, Repr

/-- Modelled from the spec (§6): the `{score, is_malicious}` payload a
reputation provider returns on success. -/
structure RepSignal where
  score : ℚ
  is_malicious : Bool
deriving DecidableEq, Repr

/-- Modelled from the spec (§9): a reputation provider behind the capability
interface `fetch(address) -> ReputationResult | error`; `none` models a
timeout or error outcome. -/
structure Provider where
  name : String
  fetch : String → Option RepSignal

/-- Modelled from the spec (§3): a synthesized `SuspiciousAddress` entry. -/
structure SuspiciousAddress where
  source_address : String
  aggregated_risk_score : ℚ
  per_source_scores : List (String × ℚ)
  is_malicious : Bool
deriving DecidableEq, Repr

/-- Split a character list on spaces (helper for the line-oriented grammar). -/
def splitOnSpace : List Char → List (List Char)
  | [] => [[]]
  | c :: cs =>
    let r := splitOnSpace cs
    if c = ' ' then [] :: r
    else
      match r with
      | [] => [[c]]
      | t :: ts => (c :: t) :: ts

/-- Whitespace tokens of a line, empty tokens dropped. -/
def lineTokens (line : String) : List String :=
  ((splitOnSpace line.data).filter (fun t => !t.isEmpty)).map (fun t => String.mk t)

/-- Parse a decimal numeral from characters; `none` on empty or non-digit input. -/
def digitsToNat (cs : List Char) : Option Nat :=
  if cs.isEmpty then none
  else
    cs.foldl
      (fun acc c =>
        acc.bind (fun n => if c.isDigit then some (n * 10 + (c.toNat - 48)) else none))
      (some 0)

/-- Modelled from the spec (§4.1): the Format Normalizer's plain-text
line-oriented parser, the backend implementation being absent from the source
tree.  A line parses under the grammar
`<timestamp> <source_address> <severity> <message...>`; a line that fails the
grammar yields `none` and is dropped and counted by `normalize`. -/
def parseLine (line : String) : Option LogRecord :=
  match lineTokens line with
  | ts :: addr :: sev :: _rest =>
    match digitsToNat ts.data with
    | some n =>
      some { timestamp := n, source_address := addr, user := none,
             severity := sev, raw_text := line }
    | none => none
  | _ => none

/-- Modelled from the spec (§4.1): normalization returns the successfully
parsed records together with the count of dropped (unparseable) lines;
`total_logs` equals the count of successfully parsed records. -/
def normalize (lines : List String) : List LogRecord × Nat :=
  (lines.filterMap parseLine, lines.countP (fun l => (parseLine l).isNone))

/-- Modelled from the spec (§4.1, §7): ingestion fails with a fatal
`IngestionError` exactly when the input is non-empty and zero records parse;
otherwise it succeeds with the records and the dropped count. -/
def ingest (lines : List String) : Except String (List LogRecord × Nat) :=
  if !lines.isEmpty && (normalize lines).1.isEmpty then Except.error "IngestionError"
  else Except.ok (normalize lines)

/-- Does `needle` occur as a prefix of `hay`? -/
def startsWithChars : List Char → List Char → Bool
  | [], _ => true
  | _ :: _, [] => false
  | n :: ns, h :: hs => n = h && startsWithChars ns hs

/-- Does `needle` occur as a contiguous substring of `hay`? -/
def containsChars (needle : List Char) : List Char → Bool
  | [] => startsWithChars needle []
  | h :: hs => startsWithChars needle (h :: hs) || containsChars needle hs

/-- Substring test on strings, used by the signature rules. -/
def containsSub (needle hay : String) : Bool :=
  containsChars needle.data hay.data

/-- The SQL-injection signature pattern `' OR '1'='1` (apostrophes escaped). -/
def sqlInjectionPattern : String := "\x27 OR \x271\x27=\x271"

/-- Modelled from the spec (§4.2): one signature rule of the Anomaly Detector
(pattern, category, finding severity, rule-weight confidence). -/
structure SigRule where
  pattern : String
  category : Category
  severity : RiskLevel
  confidence : ℚ

/-- Modelled from the spec (§4.2): the signature rules for injection and
traversal patterns; deterministic per-record matching, the backend being
absent from the source tree. -/
def signatureRules : List SigRule :=
  [ { pattern := sqlInjectionPattern, category := .sql_injection,
      severity := .critical, confidence := 1 },
    { pattern := "<script", category := .xss, severity := .high, confidence := 9/10 },
    { pattern := "../", category := .path_traversal, severity := .high,
      confidence := 9/10 } ]

/-- Findings emitted for one record by the signature rules. -/
def detectRecord (r : LogRecord) : List AnomalyFinding :=
  signatureRules.filterMap (fun rule =>
    if containsSub rule.pattern r.raw_text then
      some { source_address := r.source_address, category := rule.category,
             severity := rule.severity, confidence := rule.confidence }
    else none)

/-- Modelled from the spec (§4.2): the Anomaly Detector over the full
canonical record set of a job.  No finding is emitted for addresses with zero
triggering evidence. -/
def detect : List LogRecord → List AnomalyFinding
  | [] => []
  | r :: rs => detectRecord r ++ detect rs

/-- Modelled from the spec (§4.4): the weight of a finding severity used in
the severity-weighted confidence sum of the anomaly component. -/
def sevWeight : RiskLevel → ℚ
  | .critical => 100
  | .high => 80
  | .medium => 50
  | .low => 20

/-- Clamp a score to the interval `[0, 100]`. -/
def clamp (x : ℚ) : ℚ := min 100 (max 0 x)

/-- Modelled from the spec (§4.4): the anomaly component is a
severity-weighted sum of finding confidences, capped at 100. -/
def anomalyComponent (fs : List AnomalyFinding) : ℚ :=
  min 100 ((fs.map (fun f => sevWeight f.severity * f.confidence)).sum)

/-- The scores of the providers that answered; a `none` outcome (timeout or
error) contributes nothing (neutral, not zero). -/
def repScores (os : List (Option RepSignal)) : List ℚ :=
  (os.filterMap id).map (fun s => s.score)

/-- Modelled from the spec (§4.4): the aggregated per-address risk score.  The
reputation component is the max observed provider score (worst source wins);
it combines with the anomaly component by the fixed weight split 3/5 vs 2/5
(reputation weight at least anomaly weight; the spec leaves the exact split
as configuration, these are the model defaults), clamped to [0, 100].  With
zero reputation signals synthesis degrades to the anomaly component alone. -/
def aggregate (fs : List AnomalyFinding) (os : List (Option RepSignal)) : ℚ :=
  if (repScores os).isEmpty then clamp (anomalyComponent fs)
  else clamp (3/5 * (repScores os).foldr max 0 + 2/5 * anomalyComponent fs)

/-- Modelled from the spec (§4.4): high-risk threshold above which an address
is flagged malicious even when no provider flags it (model default 75). -/
def highRiskThreshold : ℚ := 75

/-- The findings referencing one address. -/
def findingsFor (fs : List AnomalyFinding) (a : String) : List AnomalyFinding :=
  fs.filter (fun f => f.source_address == a)

/-- The per-provider outcomes for one address. -/
def outcomesFor (ps : List Provider) (a : String) : List (Option RepSignal) :=
  ps.map (fun p => p.fetch a)

/-- Modelled from the spec (§4.4): the synthesized `SuspiciousAddress` entry
for one address: aggregated score, per-source scores of the providers that
answered, and the malicious flag (any provider flags malicious OR the score
reaches the high-risk threshold). -/
def addressEntry (fs : List AnomalyFinding) (ps : List Provider) (a : String) :
    SuspiciousAddress :=
  { source_address := a
    aggregated_risk_score := aggregate (findingsFor fs a) (outcomesFor ps a)
    per_source_scores :=
      ps.filterMap (fun p => (p.fetch a).map (fun s => (p.name, s.score)))
    is_malicious :=
      ((outcomesFor ps a).filterMap id).any (fun s => s.is_malicious)
        || decide (highRiskThreshold ≤ aggregate (findingsFor fs a) (outcomesFor ps a)) }

/-- The distinct addresses implicated by findings (addresses with zero
findings are not queried). -/
def distinctAddresses (fs : List AnomalyFinding) : List String :=
  (fs.map (fun f => f.source_address)).eraseDups

/-- Modelled from the spec (§4.4): the job-level classification cut points
over the maximum per-address score: critical at 90, high at 70, medium at 40,
low otherwise. -/
def classify (m : ℚ) : RiskLevel :=
  if 90 ≤ m then .critical
  else if 70 ≤ m then .high
  else if 40 ≤ m then .medium
  else .low

/-- Maximum of a list of scores, 0 when there are none. -/
def maxScore (l : List ℚ) : ℚ := l.foldr max 0

/-- Modelled from the spec (§4.4): the suspicious-address list synthesized
from a job's records and the configured providers. -/
def suspiciousOf (records : List LogRecord) (ps : List Provider) :
    List SuspiciousAddress :=
  (distinctAddresses (detect records)).map (addressEntry (detect records) ps)

/-- Modelled from the spec (§4.4): job-level `risk_level`, derived from the
maximum `aggregated_risk_score` across all suspicious addresses. -/
def jobRisk (records : List LogRecord) (ps : List Provider) : RiskLevel :=
  classify (maxScore ((suspiciousOf records ps).map (fun s => s.aggregated_risk_score)))

/-- Modelled from the spec (§3, §6): the completed (or terminal) read model of
an `AnalysisJob` as produced by the pipeline. -/
structure JobResult where
  status : Status
  total_logs : Nat
  records : List LogRecord
  suspicious_addresses : List SuspiciousAddress
  risk_level : RiskLevel
  cause : Option String
deriving Repr

/-- Modelled from the spec (§4.5, §5): one run of the Job State Machine's
pipeline.  Cancellation is checked cooperatively before each stage; a fatal
`IngestionError` transitions to `failed` with the recorded cause; otherwise
the stages run sequentially to `completed`. -/
def runJob (lines : List String) (ps : List Provider)
    (cancelQueued cancelProcessing : Bool) : JobResult :=
  if cancelQueued || cancelProcessing then
    { status := .canceled, total_logs := 0, records := [],
      suspicious_addresses := [], risk_level := .low, cause := none }
  else
    match ingest lines with
    | .error e =>
      { status := .failed, total_logs := 0, records := [],
        suspicious_addresses := [], risk_level := .low, cause := some e }
    | .ok (rs, _dropped) =>
      { status := .completed, total_logs := rs.length, records := rs,
        suspicious_addresses := suspiciousOf rs ps, risk_level := jobRisk rs ps,
        cause := none }

/-- Modelled from the spec (§4.5): the sequence of status values a polling
client can observe over the lifetime of one pipeline run: `queued`, then
(unless canceled while queued) `processing`, then the terminal state reached
by `runJob`. -/
def statusTrace (lines : List String) (_ps : List Provider)
    (cancelQueued cancelProcessing : Bool) : List Status :=
  if cancelQueued then [.queued, .canceled]
  else if cancelProcessing then [.queued, .processing, .canceled]
  else
    match ingest lines with
    | .error _ => [.queued, .processing, .failed]
    | .ok _ => [.queued, .processing, .completed]

/-- Boolean success test for `Except` results. -/
def exceptOk : Except String (List LogRecord × Nat) → Bool
  | .ok _ => true
  | .error _ => false

/-- Modelled from the spec (§4.6, §6): the filter request predicate
`{ip?, user?, severity?, startTime?, endTime?}`; an omitted field is `none`. -/
structure FilterPredicate where
  ip : Option String
  user : Option String
  severity : Option String
  startTime : Option Nat
  endTime : Option Nat

/-- Modelled from the spec (§4.6): a record matches when every supplied field
matches (conjunction); an omitted field imposes no constraint; time bounds
are inclusive on both ends. -/
def matchesRecord (p : FilterPredicate) (r : LogRecord) : Bool :=
  (match p.ip with
   | none => true
   | some v => r.source_address == v) &&
  (match p.user with
   | none => true
   | some v => r.user == some v) &&
  (match p.severity with
   | none => true
   | some v => r.severity == v) &&
  (match p.startTime with
   | none => true
   | some t => decide (t ≤ r.timestamp)) &&
  (match p.endTime with
   | none => true
   | some t => decide (r.timestamp ≤ t))

/-- Modelled from the spec (§4.6): the matching subset of the stored records. -/
def filterRecords (p : FilterPredicate) (rs : List LogRecord) : List LogRecord :=
  rs.filter (matchesRecord p)

/-- Modelled from the spec (§7): the client errors of the Filter Query Engine. -/
inductive FilterError
  | invalidFilter
deriving DecidableEq, Repr

/-- Modelled from the spec (§4.6): a filter query against a job; a job not in
`completed` state is rejected with `InvalidFilterError`, otherwise the count
and matching subset are returned. -/
def filterLogs (job : JobResult) (p : FilterPredicate) :
    Except FilterError (Nat × List LogRecord) :=
  if job.status = .completed then
    Except.ok ((filterRecords p job.records).length, filterRecords p job.records)
  else Except.error .invalidFilter

/-- The predicate that supplies only `severity = "CRITICAL"`. -/
def criticalPred : FilterPredicate :=
  { ip := none, user := none, severity := some "CRITICAL",
    startTime := none, endTime := none }

/-- The predicate with no supplied fields. -/
def emptyPred : FilterPredicate :=
  { ip := none, user := none, severity := none, startTime := none, endTime := none }

/-- Modelled from the spec (§3, §4.3): one cached reputation entry. -/
structure CacheEntry where
  signal : RepSignal
  fetched_at : Nat
deriving DecidableEq, Repr

/-- Modelled from the spec (§4.3, §5): the shared reputation cache state —
stored entries keyed by `(provider_name, source_address)` plus the set of
keys with an in-flight fetch (single-flight bookkeeping). -/
structure CacheState where
  entries : List ((String × String) × CacheEntry)
  inflight : List (String × String)
deriving DecidableEq, Repr

/-- The cached entry for a key, if any. -/
def findEntry (st : CacheState) (k : String × String) : Option CacheEntry :=
  (st.entries.find? (fun e => e.1 == k)).map (fun e => e.2)

/-- Modelled from the spec (§4.3): a requester starts a lookup at time `now`.
A fresh cache hit (within `ttl`) short-circuits: no external call.  Otherwise,
if a fetch for the key is already in flight the requester joins it (no call);
else the key is marked in flight and exactly one external call is issued.
Returns the new state and the number of external calls issued (0 or 1). -/
def beginLookup (st : CacheState) (k : String × String) (now ttl : Nat) :
    CacheState × Nat :=
  match findEntry st k with
  | some e =>
    if now ≤ e.fetched_at + ttl then (st, 0)
    else if st.inflight.contains k then (st, 0)
    else ({ st with inflight := k :: st.inflight }, 1)
  | none =>
    if st.inflight.contains k then (st, 0)
    else ({ st with inflight := k :: st.inflight }, 1)

/-- Modelled from the spec (§4.3): the in-flight fetch for `k` settles with
`sig` at time `now`: the entry is stored and the key leaves the in-flight set. -/
def completeFetch (st : CacheState) (k : String × String) (sig : RepSignal)
    (now : Nat) : CacheState :=
  { entries :=
      (k, { signal := sig, fetched_at := now }) ::
        st.entries.filter (fun e => !(e.1 == k))
    inflight := st.inflight.filter (fun j => !(j == k)) }

/-- One statistic value as rendered by the Dashboard: a number or a text. -/
inductive StatValue
  | num (n : Nat)
  | text (s : String)
deriving DecidableEq, Repr

/-- The dashboard API payload fields the Dashboard component reads
(`ServerConnect.tsx`, `Dashboard`); `none` models an absent field. -/
structure DashboardData where
  total_analyses : Option Nat
  total_logs_processed : Option Nat
  suspicious_ips_found : Option Nat

/-- Embedded from `ServerConnect.tsx` (`Dashboard`, the `stats` array): the
four statistics, with `x || 0` defaulting modelled by `Option.getD 0` and the
`Security Score` value the constant string `85%`. -/
def dashboardStats (d : DashboardData) : List (String × StatValue) :=
  [ ("Total Analyses", .num (d.total_analyses.getD 0)),
    ("Logs Processed", .num (d.total_logs_processed.getD 0)),
    ("Suspicious IPs", .num (d.suspicious_ips_found.getD 0)),
    ("Security Score", .text "85%") ]

/-- Embedded from `ServerConnect.tsx` (`Dashboard`, the `severityData`
constant feeding the Severity Distribution pie chart). -/
def severityChartData : List (String × Nat) :=
  [("Critical", 12), ("High", 28), ("Medium", 45), ("Low", 76)]

/-- The five-line input log of the spec's SQL-injection scenario (§8); the
second line carries the pattern in a URL parameter from `10.0.0.50`. -/
def scenarioLines : List String :=
  [ "100 192.168.1.10 INFO GET /home",
    "101 10.0.0.50 ERROR GET /index.php?id=\x27 OR \x271\x27=\x271",
    "102 192.168.1.11 INFO GET /about",
    "103 192.168.1.12 WARNING POST /login",
    "104 192.168.1.13 INFO GET /contact" ]

/-- The scenario's reputation provider: `{score: 90, is_malicious: true}` for
`10.0.0.50`, no data for other addresses. -/
def scenarioProvider : Provider :=
  { name := "repA",
    fetch := fun a =>
      if a == "10.0.0.50" then some { score := 90, is_malicious := true } else none }

/-- The `sql_injection` finding the detector emits in the scenario. -/
def scenarioFinding : AnomalyFinding :=
  { source_address := "10.0.0.50", category := .sql_injection,
    severity := .critical, confidence := 1 }

/-- The reputation signal of the scenario provider. -/
def scenarioSignal : RepSignal := { score := 90, is_malicious := true }

/-- A one-line log with no attack patterns, used as a completed-job input. -/
def benignLines : List String := ["1 192.168.0.7 INFO GET /ping"]

lemma scenario_detect : detect (normalize scenarioLines).1 = [scenarioFinding] := by
  rfl

lemma scenario_aggregate :
    aggregate [scenarioFinding] [some scenarioSignal] = 94 := by
  norm_num [aggregate, repScores, anomalyComponent, clamp, sevWeight, scenarioFinding,
    scenarioSignal, List.filterMap_cons, List.filterMap_nil, List.foldr, List.map,
    max_def, min_def]

lemma scenario_suspicious :
    (runJob scenarioLines [scenarioProvider] false false).suspicious_addresses
      = [addressEntry [scenarioFinding] [scenarioProvider] "10.0.0.50"] := by
  rfl

lemma runJob_risk_level_eq (lines : List String) (ps : List Provider) :
    (runJob lines ps false false).risk_level =
      classify (maxScore (((runJob lines ps false false).suspicious_addresses).map
        (fun s => s.aggregated_risk_score))) := by
  unfold runJob
  simp only [Bool.or_self, Bool.false_eq_true, if_false]
  cases h : ingest lines with
  | error e => norm_num [classify, maxScore]
  | ok v =>
    rcases v with ⟨rs, d⟩
    simp [jobRisk, suspiciousOf]

lemma classify_iff (m : ℚ) :
    (classify m = RiskLevel.critical ↔ 90 ≤ m) ∧
    (classify m = RiskLevel.high ↔ 70 ≤ m ∧ m < 90) ∧
    (classify m = RiskLevel.medium ↔ 40 ≤ m ∧ m < 70) ∧
    (classify m = RiskLevel.low ↔ m < 40) := by
  unfold classify
  split_ifs with h1 h2 h3 <;>
    refine ⟨?_, ?_, ?_, ?_⟩ <;>
    constructor <;>
    intro hh <;>
    first
      | rfl
      | linarith
      | (exact ⟨by linarith, by linarith⟩)
      | simp_all

/-- C1: for every completed analysis job, the job-level risk level equals the
classification of the maximum aggregated risk score over all of the job's
suspicious addresses under the fixed cut points: critical when that maximum is
at least 90, high when at least 70, medium when at least 40, low otherwise. -/
theorem c1_risk_level_cut_points (lines : List String) (ps : List Provider)
    (_h : (runJob lines ps false false).status = Status.completed) :
    ((runJob lines ps false false).risk_level = RiskLevel.critical ↔
        90 ≤ maxScore (((runJob lines ps false false).suspicious_addresses).map
          (fun s => s.aggregated_risk_score))) ∧
    ((runJob lines ps false false).risk_level = RiskLevel.high ↔
        70 ≤ maxScore (((runJob lines ps false false).suspicious_addresses).map
          (fun s => s.aggregated_risk_score)) ∧
        maxScore (((runJob lines ps false false).suspicious_addresses).map
          (fun s => s.aggregated_risk_score)) < 90) ∧
    ((runJob lines ps false false).risk_level = RiskLevel.medium ↔
        40 ≤ maxScore (((runJob lines ps false false).suspicious_addresses).map
          (fun s => s.aggregated_risk_score)) ∧
        maxScore (((runJob lines ps false false).suspicious_addresses).map
          (fun s => s.aggregated_risk_score)) < 70) ∧
    ((runJob lines ps false false).risk_level = RiskLevel.low ↔
        maxScore (((runJob lines ps false false).suspicious_addresses).map
          (fun s => s.aggregated_risk_score)) < 40) := by
  have he := runJob_risk_level_eq lines ps
  have hc := classify_iff (maxScore (((runJob lines ps false false).suspicious_addresses).map
    (fun s => s.aggregated_risk_score)))
  rw [← he] at hc
  exact hc

/-- Witness for C1 at a concrete completed job (one benign line, no
providers): the maximum score is 0, so the risk level is low. -/
theorem c1_witness :
    ((runJob benignLines [] false false).risk_level = RiskLevel.critical ↔
        90 ≤ maxScore (((runJob benignLines [] false false).suspicious_addresses).map
          (fun s => s.aggregated_risk_score))) ∧
    ((runJob benignLines [] false false).risk_level = RiskLevel.high ↔
        70 ≤ maxScore (((runJob benignLines [] false false).suspicious_addresses).map
          (fun s => s.aggregated_risk_score)) ∧
        maxScore (((runJob benignLines [] false false).suspicious_addresses).map
          (fun s => s.aggregated_risk_score)) < 90) ∧
    ((runJob benignLines [] false false).risk_level = RiskLevel.medium ↔
        40 ≤ maxScore (((runJob benignLines [] false false).suspicious_addresses).map
          (fun s => s.aggregated_risk_score)) ∧
        maxScore (((runJob benignLines [] false false).suspicious_addresses).map
          (fun s => s.aggregated_risk_score)) < 70) ∧
    ((runJob benignLines [] false false).risk_level = RiskLevel.low ↔
        maxScore (((runJob benignLines [] false false).suspicious_addresses).map
          (fun s => s.aggregated_risk_score)) < 40) :=
  c1_risk_level_cut_points benignLines [] (by rfl)

/-- C2: on the five-line scenario log, the detector emits a `sql_injection`
finding for `10.0.0.50`; with a provider returning `{score: 90,
is_malicious: true}` for that address the synthesized aggregated risk score
for `10.0.0.50` is at least 90 and the job risk level is critical. -/
theorem c2_sql_injection_scenario :
    (∃ f ∈ detect (normalize scenarioLines).1,
        f.category = Category.sql_injection ∧ f.source_address = "10.0.0.50") ∧
    (∃ sa ∈ (runJob scenarioLines [scenarioProvider] false false).suspicious_addresses,
        sa.source_address = "10.0.0.50" ∧ 90 ≤ sa.aggregated_risk_score) ∧
    (runJob scenarioLines [scenarioProvider] false false).risk_level
      = RiskLevel.critical := by
  refine ⟨⟨scenarioFinding, ?_, rfl, rfl⟩,
      ⟨addressEntry [scenarioFinding] [scenarioProvider] "10.0.0.50", ?_, rfl, ?_⟩, ?_⟩
  · rw [scenario_detect]
    exact List.mem_singleton.mpr rfl
  · rw [scenario_suspicious]
    exact List.mem_singleton.mpr rfl
  · show 90 ≤ aggregate [scenarioFinding] [some scenarioSignal]
    rw [scenario_aggregate]
    norm_num
  · show classify (maxScore [aggregate [scenarioFinding] [some scenarioSignal]])
      = RiskLevel.critical
    rw [scenario_aggregate]
    norm_num [maxScore, classify, List.foldr, max_def]

/-- C3: the aggregated risk score is a pure deterministic function of the
finding/reputation inputs for an address — permuting the findings and the
provider outcomes (arrival order of concurrent provider responses) leaves the
score unchanged. -/
theorem c3_score_order_independent (fs fs2 : List AnomalyFinding)
    (os os2 : List (Option RepSignal))
    (hf : List.Perm fs fs2) (ho : List.Perm os os2) :
    aggregate fs os = aggregate fs2 os2 := by
  have hanom : anomalyComponent fs = anomalyComponent fs2 := by
    unfold anomalyComponent
    rw [(hf.map (fun f => sevWeight f.severity * f.confidence)).sum_eq]
  have hperm : List.Perm (repScores os) (repScores os2) := by
    unfold repScores
    exact (ho.filterMap id).map (fun s => s.score)
  have hempty : (repScores os).isEmpty = (repScores os2).isEmpty := by
    cases h4 : repScores os with
    | nil =>
      have h5 : repScores os2 = [] := by
        rw [h4] at hperm
        exact (List.Perm.nil_eq hperm).symm
      rw [h5]
    | cons b m =>
      cases h6 : repScores os2 with
      | nil =>
        rw [h4, h6] at hperm
        exact absurd (List.Perm.eq_nil hperm) (by simp)
      | cons c mm => rfl
  have hmax : (repScores os).foldr max 0 = (repScores os2).foldr max 0 := by
    haveI : LeftCommutative (max : ℚ → ℚ → ℚ) := ⟨fun a b c => max_left_comm a b c⟩
    exact hperm.foldr_eq 0
  unfold aggregate
  rw [hanom, hmax, hempty]

/-- A finding used by the determinism witness. -/
def wFindA : AnomalyFinding :=
  { source_address := "w", category := .xss, severity := .high, confidence := 1 }

/-- A second finding used by the determinism witness. -/
def wFindB : AnomalyFinding :=
  { source_address := "w", category := .brute_force, severity := .medium,
    confidence := 0 }

/-- A reputation signal used by the determinism witness. -/
def wSig : RepSignal := { score := 10, is_malicious := false }

/-- Witness for C3: swapping two findings and two provider outcomes leaves
the aggregated score unchanged. -/
theorem c3_witness :
    aggregate [wFindA, wFindB] [some wSig, none]
      = aggregate [wFindB, wFindA] [none, some wSig] :=
  c3_score_order_independent [wFindA, wFindB] [wFindB, wFindA]
    [some wSig, none] [none, some wSig]
    (List.Perm.swap wFindB wFindA []) (List.Perm.swap none (some wSig) [])

/-- C4: over one pipeline run, the observable status sequence is
non-decreasing in the lifecycle order queued, processing, terminal (never
regresses), and a terminal state occurs in it exactly once. -/
theorem c4_status_monotone_terminal_once (lines : List String)
    (ps : List Provider) (cq cp : Bool) :
    (statusTrace lines ps cq cp).Pairwise (fun a b => a.rank ≤ b.rank) ∧
    (statusTrace lines ps cq cp).countP (fun s => s.isTerminal) = 1 := by
  cases cq <;> cases cp <;>
    simp only [statusTrace, Bool.false_eq_true, Bool.true_eq_false, if_true, if_false,
      reduceIte] <;>
    first
      | exact ⟨by decide, by decide⟩
      | (cases h : ingest lines <;> simp only [h] <;> exact ⟨by decide, by decide⟩)

/-- C5: a non-empty input from which zero records parse makes ingestion fail
fatally and the job terminate as `failed` with cause `IngestionError`; a
single malformed record among otherwise parseable input is instead dropped
and counted, and does not abort ingestion. -/
theorem c5_zero_parse_fatal_single_drop_nonfatal (lines : List String)
    (ps : List Provider) (bad : String) (pre post : List String)
    (hne : lines ≠ []) (hzero : (normalize lines).1 = [])
    (hbad : parseLine bad = none) :
    ((runJob lines ps false false).status = Status.failed ∧
      (runJob lines ps false false).cause = some "IngestionError") ∧
    (normalize (pre ++ bad :: post)).1 = (normalize (pre ++ post)).1 ∧
    (normalize (pre ++ bad :: post)).2 = (normalize (pre ++ post)).2 + 1 ∧
    ((normalize (pre ++ post)).1 ≠ [] →
      exceptOk (ingest (pre ++ bad :: post)) = true) := by
  have hEmptyFalse : lines.isEmpty = false := by
    cases lines with
    | nil => exact absurd rfl hne
    | cons a l => rfl
  have hcond : (!lines.isEmpty && (normalize lines).1.isEmpty) = true := by
    rw [hEmptyFalse, hzero]
    rfl
  have hing : ingest lines = Except.error "IngestionError" := by
    unfold ingest
    rw [hcond]
    rfl
  have hrecords : (normalize (pre ++ bad :: post)).1 = (normalize (pre ++ post)).1 := by
    simp [normalize, List.filterMap_append, List.filterMap_cons, hbad]
  refine ⟨⟨?_, ?_⟩, hrecords, ?_, ?_⟩
  · simp [runJob, hing]
  · simp [runJob, hing]
  · simp only [normalize, List.countP_append, List.countP_cons, hbad]
    simp
    omega
  · intro hne2
    have hfalse : (normalize (pre ++ bad :: post)).1.isEmpty = false := by
      rw [hrecords]
      cases h7 : (normalize (pre ++ post)).1 with
      | nil => exact absurd h7 hne2
      | cons a l => rfl
    have hok2 : ingest (pre ++ bad :: post)
        = Except.ok (normalize (pre ++ bad :: post)) := by
      unfold ingest
      rw [hfalse]
      simp
    rw [hok2]
    rfl

/-- Witness for C5: the single garbage line parses to nothing and fails the
job, while the same garbage line amid a parseable line is merely dropped and
counted. -/
theorem c5_witness :
    ((runJob ["garbage"] [] false false).status = Status.failed ∧
      (runJob ["garbage"] [] false false).cause = some "IngestionError") ∧
    (normalize (["1 10.0.0.1 INFO ok"] ++ "garbage" :: [])).1
      = (normalize (["1 10.0.0.1 INFO ok"] ++ [])).1 ∧
    (normalize (["1 10.0.0.1 INFO ok"] ++ "garbage" :: [])).2
      = (normalize (["1 10.0.0.1 INFO ok"] ++ [])).2 + 1 ∧
    ((normalize (["1 10.0.0.1 INFO ok"] ++ [])).1 ≠ [] →
      exceptOk (ingest (["1 10.0.0.1 INFO ok"] ++ "garbage" :: [])) = true) :=
  c5_zero_parse_fatal_single_drop_nonfatal ["garbage"] [] "garbage"
    ["1 10.0.0.1 INFO ok"] [] (by simp) (by rfl) (by rfl)

/-- C6: a provider that times out or errors for an address contributes
nothing to that address's synthesized entry (neutral, not a zero score), and
the job still reaches `completed`. -/
theorem c6_provider_failure_neutral (lines : List String) (p : Provider)
    (ps : List Provider) (a : String) (fs : List AnomalyFinding)
    (hp : p.fetch a = none) (hok : exceptOk (ingest lines) = true) :
    addressEntry fs (p :: ps) a = addressEntry fs ps a ∧
    (runJob lines (p :: ps) false false).status = Status.completed := by
  constructor
  · simp [addressEntry, outcomesFor, aggregate, repScores, hp]
  · cases h : ingest lines with
    | error e =>
      rw [h] at hok
      exact absurd hok (by simp [exceptOk])
    | ok v =>
      rcases v with ⟨rs, d⟩
      simp [runJob, h]

/-- The always-failing provider of the partial-failure witness. -/
def downProvider : Provider := { name := "down", fetch := fun _ => none }

/-- Witness for C6 at a concrete input: the failing provider leaves the
address entry unchanged and the benign job completes. -/
theorem c6_witness :
    addressEntry [] (downProvider :: []) "10.0.0.9"
        = addressEntry [] [] "10.0.0.9" ∧
    (runJob benignLines (downProvider :: []) false false).status
        = Status.completed :=
  c6_provider_failure_neutral benignLines downProvider [] "10.0.0.9" []
    (by rfl) (by rfl)

/-- C7 (amended): the Filter Query Engine returns exactly the stored records
satisfying the conjunction of all supplied fields — an omitted field imposes
no constraint, time bounds are inclusive on both ends; the empty predicate
returns all records; `severity = "CRITICAL"` returns a subset whose every
record has that severity, strict whenever some stored record has a different
severity. -/
theorem c7_filter_conjunction (p : FilterPredicate) (rs : List LogRecord)
    (r : LogRecord) :
    (r ∈ filterRecords p rs ↔ r ∈ rs ∧
      (∀ v, p.ip = some v → r.source_address = v) ∧
      (∀ v, p.user = some v → r.user = some v) ∧
      (∀ v, p.severity = some v → r.severity = v) ∧
      (∀ t, p.startTime = some t → t ≤ r.timestamp) ∧
      (∀ t, p.endTime = some t → r.timestamp ≤ t)) ∧
    filterRecords emptyPred rs = rs ∧
    (∀ r2 ∈ filterRecords criticalPred rs, r2.severity = "CRITICAL") ∧
    List.Sublist (filterRecords criticalPred rs) rs ∧
    ((∃ r0 ∈ rs, r0.severity ≠ "CRITICAL") → filterRecords criticalPred rs ≠ rs) := by
  have hcrit : ∀ r2 ∈ filterRecords criticalPred rs, r2.severity = "CRITICAL" := by
    intro r2 h2
    simp [filterRecords, List.mem_filter, matchesRecord, criticalPred] at h2
    exact h2.2
  refine ⟨?_, ?_, hcrit, List.filter_sublist rs, ?_⟩
  · rcases p with ⟨ip, u, sv, st, et⟩
    cases ip <;> cases u <;> cases sv <;> cases st <;> cases et <;>
      simp [filterRecords, List.mem_filter, matchesRecord, and_assoc]
  · simp [filterRecords, emptyPred, List.filter_eq_self, matchesRecord]
  · rintro ⟨r0, h0, hneq⟩ heq
    exact hneq (hcrit r0 (heq.symm ▸ h0))

/-- A stored record whose severity is `CRITICAAL`-free demo data: a store
consisting only of CRITICAL records. -/
def critRec : LogRecord :=
  { timestamp := 5, source_address := "9.9.9.9", user := none,
    severity := "CRITICAL", raw_text := "5 9.9.9.9 CRITICAL boom" }

/-- A stored record with severity INFO, for the strictness witness. -/
def infoRec : LogRecord :=
  { timestamp := 6, source_address := "8.8.8.8", user := none,
    severity := "INFO", raw_text := "6 8.8.8.8 INFO ok" }

/-- Counterexample to C7 as stated: on a store whose every record has
severity `CRITICAL`, the `severity = "CRITICAL"` filter returns the whole
store, which is not a strict subset of it. -/
theorem c7_counterexample :
    filterRecords criticalPred [critRec] = [critRec] ∧
    critRec.severity = "CRITICAL" := by
  constructor
  · rfl
  · rfl

/-- Witness for C7 (amended): with an INFO record in the store the
`severity = "CRITICAL"` filter output really is strict. -/
theorem c7_witness :
    filterRecords criticalPred [infoRec, critRec] ≠ [infoRec, critRec] :=
  (c7_filter_conjunction criticalPred [infoRec, critRec] critRec).2.2.2.2
    ⟨infoRec, by simp, by simp [infoRec]⟩

/-- C8: a filter query against a job whose status is not `completed` is
rejected with `InvalidFilterError` and returns no records. -/
theorem c8_filter_requires_completed (job : JobResult) (p : FilterPredicate)
    (h : job.status ≠ Status.completed) :
    filterLogs job p = Except.error FilterError.invalidFilter := by
  unfold filterLogs
  rw [if_neg h]

/-- A job still in `processing`, for the C8 witness. -/
def processingJob : JobResult :=
  { status := .processing, total_logs := 0, records := [],
    suspicious_addresses := [], risk_level := .low, cause := none }

/-- Witness for C8: querying the processing job is rejected. -/
theorem c8_witness :
    filterLogs processingJob emptyPred = Except.error FilterError.invalidFilter :=
  c8_filter_requires_completed processingJob emptyPred (by simp [processingJob])

/-- C9: reputation-cache single flight — a fresh hit within `ttl` issues no
external call; from a cold cache the first lookup issues exactly one call,
a second lookup within `ttl` of the cached entry issues none (two lookups,
one call total), and a concurrent requester arriving while the fetch is in
flight joins it without issuing a call. -/
theorem c9_cache_single_flight (st : CacheState) (k : String × String)
    (t0 t1 ttl : Nat) (sig : RepSignal)
    (hmiss : findEntry st k = none) (hnif : st.inflight.contains k = false)
    (hwithin : t1 ≤ t0 + ttl) :
    (∀ st2 e now2, findEntry st2 k = some e → now2 ≤ e.fetched_at + ttl →
        beginLookup st2 k now2 ttl = (st2, 0)) ∧
    (beginLookup st k t0 ttl).2 = 1 ∧
    (beginLookup (completeFetch (beginLookup st k t0 ttl).1 k sig t0) k t1 ttl).2
      = 0 ∧
    (beginLookup st k t0 ttl).2
      + (beginLookup (completeFetch (beginLookup st k t0 ttl).1 k sig t0) k t1
          ttl).2 = 1 ∧
    (beginLookup (beginLookup st k t0 ttl).1 k t1 ttl).2 = 0 := by
  have hb : beginLookup st k t0 ttl = ({ st with inflight := k :: st.inflight }, 1) := by
    unfold beginLookup
    rw [hmiss, hnif]
    rfl
  have hhit : ∀ st2 e now2, findEntry st2 k = some e → now2 ≤ e.fetched_at + ttl →
      beginLookup st2 k now2 ttl = (st2, 0) := by
    intro st2 e now2 hfind hle
    unfold beginLookup
    rw [hfind]
    simp [hle]
  have hcomplete : findEntry (completeFetch { st with inflight := k :: st.inflight }
      k sig t0) k = some { signal := sig, fetched_at := t0 } := by
    simp [completeFetch, findEntry, List.find?]
  have hsecond : (beginLookup (completeFetch (beginLookup st k t0 ttl).1 k sig t0)
      k t1 ttl).2 = 0 := by
    rw [hb]
    rw [hhit _ { signal := sig, fetched_at := t0 } t1 hcomplete hwithin]
  refine ⟨hhit, by rw [hb], hsecond, ?_, ?_⟩
  · rw [hb] at hsecond ⊢
    rw [hsecond]
  · rw [hb]
    unfold beginLookup
    have : findEntry { st with inflight := k :: st.inflight } k = none := hmiss
    rw [this]
    simp

/-- Witness for C9 at a concrete cold cache and key. -/
theorem c9_witness :
    (∀ st2 e now2, findEntry st2 ("vt", "1.2.3.4") = some e →
        now2 ≤ e.fetched_at + 10 →
        beginLookup st2 ("vt", "1.2.3.4") now2 10 = (st2, 0)) ∧
    (beginLookup { entries := [], inflight := [] } ("vt", "1.2.3.4") 0 10).2 = 1 ∧
    (beginLookup (completeFetch (beginLookup { entries := [], inflight := [] }
        ("vt", "1.2.3.4") 0 10).1 ("vt", "1.2.3.4")
          { score := 50, is_malicious := false } 0) ("vt", "1.2.3.4") 5 10).2 = 0 ∧
    (beginLookup { entries := [], inflight := [] } ("vt", "1.2.3.4") 0 10).2
      + (beginLookup (completeFetch (beginLookup { entries := [], inflight := [] }
          ("vt", "1.2.3.4") 0 10).1 ("vt", "1.2.3.4")
            { score := 50, is_malicious := false } 0) ("vt", "1.2.3.4") 5 10).2
        = 1 ∧
    (beginLookup (beginLookup { entries := [], inflight := [] }
        ("vt", "1.2.3.4") 0 10).1 ("vt", "1.2.3.4") 5 10).2 = 0 :=
  c9_cache_single_flight { entries := [], inflight := [] } ("vt", "1.2.3.4")
    0 5 10 { score := 50, is_malicious := false } (by rfl) (by rfl) (by omega)

/-- C10: the Dashboard renders the Security Score statistic as the constant
`85%` and the Severity Distribution chart from the constant data (Critical
12, High 28, Medium 45, Low 76), independent of the fetched dashboard data. -/
theorem c10_dashboard_constants (d : DashboardData) :
    (dashboardStats d).get? 3 = some ("Security Score", StatValue.text "85%") ∧
    severityChartData = [("Critical", 12), ("High", 28), ("Medium", 45), ("Low", 76)] ∧
    ∀ d2 : DashboardData, (dashboardStats d).get? 3 = (dashboardStats d2).get? 3 :=
  ⟨rfl, rfl, fun _ => rfl⟩

end LogAnalyzer
